import Mathlib

/-!
Shallow embedding of the FrightFlow freight-platform services
(quotation, CRM, vendor, pricing, notifications, booking), translated
from the Python sources, together with theorems settling the spec
claims about them.  Machine integers are modelled as `Int`/`Nat`,
decimal and float arithmetic as `ℚ`, timestamps as `Int` (the current
time is passed explicitly where the Python code calls
`datetime.utcnow()`), and fallible code returns `Except`.
-/

namespace Quotation

/-- Error taxonomy kind raised by the quote model (`ValueError` in the
Python source, surfaced as the spec's `InvalidInput` kind / HTTP 400). -/
inductive QuoteError
  | invalidInput (msg : String)
  deriving DecidableEq, Repr

/-- `Quote` model, `src/services/quotation/quotation-service/src/models/quotation.py`.
Only the fields read or written by `is_valid`/`is_expired`/`accept`/`issue`
are carried; `status` is the stored string column. -/
structure Quote where
  status : String
  valid_until : Int
  accepted_at : Option Int
  issued_at : Option Int
  deriving DecidableEq, Repr

/-- `Quote.is_valid`: `datetime.utcnow() <= self.valid_until and self.status in ['ISSUED', 'DRAFT']`. -/
def Quote.is_valid (now : Int) (q : Quote) : Bool :=
  decide (now ≤ q.valid_until) && (q.status == "ISSUED" || q.status == "DRAFT")

/-- `Quote.is_expired`: `datetime.utcnow() > self.valid_until`. -/
def Quote.is_expired (now : Int) (q : Quote) : Bool :=
  decide (q.valid_until < now)

/-- `Quote.accept`: raises unless `is_valid()`, else sets status `ACCEPTED`
and stamps `accepted_at`. -/
def Quote.accept (now : Int) (q : Quote) : Except QuoteError Quote :=
  if q.is_valid now then
    .ok { q with status := "ACCEPTED", accepted_at := some now }
  else
    .error (.invalidInput "Cannot accept expired or invalid quote")

/-- `Quote.issue`: raises unless status is `DRAFT`, else sets status `ISSUED`
and stamps `issued_at`. -/
def Quote.issue (now : Int) (q : Quote) : Except QuoteError Quote :=
  if q.status == "DRAFT" then
    .ok { q with status := "ISSUED", issued_at := some now }
  else
    .error (.invalidInput "Can only issue draft quotes")

end Quotation

namespace CRM

/-- `LeadSource` enum, `src/services/crm/crm-service/src/models/lead.py`. -/
inductive LeadSource
  | WEBSITE | REFERRAL | COLD_CALL | EMAIL_CAMPAIGN | SOCIAL_MEDIA
  | TRADE_SHOW | ADVERTISEMENT | PARTNER | OTHER
  deriving DecidableEq, Repr

/-- `LeadPriority` enum. -/
inductive LeadPriority
  | LOW | MEDIUM | HIGH | URGENT
  deriving DecidableEq, Repr

/-- `Lead` model fields read by `calculate_score`.  `estimated_value` is the
optional float column (`ℚ` here); `days_since_contact` stands for
`(datetime.utcnow() - self.last_contact_date).days` when a last-contact
date is present (`none` when the column is `None`). -/
structure Lead where
  source : LeadSource
  priority : LeadPriority
  estimated_value : Option ℚ
  probability : ℕ
  days_since_contact : Option Int
  deriving DecidableEq, Repr

/-- The `source_scores` dict of `Lead.calculate_score`
(`.get(self.source, 0)` is total on the enum). -/
def source_scores : LeadSource → ℕ
  | .REFERRAL => 20
  | .PARTNER => 15
  | .WEBSITE => 10
  | .TRADE_SHOW => 10
  | .SOCIAL_MEDIA => 5
  | .EMAIL_CAMPAIGN => 5
  | .COLD_CALL => 3
  | .ADVERTISEMENT => 3
  | .OTHER => 0

/-- The `priority_scores` dict of `Lead.calculate_score`. -/
def priority_scores : LeadPriority → ℕ
  | .URGENT => 15
  | .HIGH => 10
  | .MEDIUM => 5
  | .LOW => 0

/-- `Lead.calculate_score`, translated statement by statement: base score
from probability, source points, priority points, the estimated-value
ladder (guarded by Python truthiness, so `None` and `0.0` both skip it),
the recency ladder, and the final cap at 100. -/
def Lead.calculate_score (l : Lead) : ℕ :=
  let score := l.probability
  let score := score + source_scores l.source
  let score := score + priority_scores l.priority
  let score := score +
    (match l.estimated_value with
     | none => 0
     | some v =>
       if v = 0 then 0
       else if 100000 ≤ v then 20
       else if 50000 ≤ v then 15
       else if 10000 ≤ v then 10
       else if 5000 ≤ v then 5
       else 0)
  let score := score +
    (match l.days_since_contact with
     | none => 0
     | some d => if d ≤ 7 then 10 else if d ≤ 30 then 5 else 0)
  min score 100

/-- The value-tier point table exactly as the claim words it
(`>=100000: 20, >=50000: 15, >=10000: 10, >=5000: 5, else 0`). -/
def valueTierPointsSpec : Option ℚ → ℕ
  | none => 0
  | some v =>
    if 100000 ≤ v then 20
    else if 50000 ≤ v then 15
    else if 10000 ≤ v then 10
    else if 5000 ≤ v then 5
    else 0

/-- The recency point table exactly as the claim words it
(`<=7 days: 10, <=30 days: 5, else 0`). -/
def recencyPointsSpec : Option Int → ℕ
  | none => 0
  | some d => if d ≤ 7 then 10 else if d ≤ 30 then 5 else 0

/-- The claim's scoring formula: plain sum of the five components, capped at 100. -/
def leadScoreSpec (l : Lead) : ℕ :=
  min (l.probability + source_scores l.source + priority_scores l.priority +
       valueTierPointsSpec l.estimated_value + recencyPointsSpec l.days_since_contact) 100

end CRM

namespace VendorSvc

/-- `Vendor` model fields touched by `update_rating`,
`src/services/vendor/vendor-service/src/models/vendor.py`.  The float
`average_rating` is modelled as `ℚ` (every value arising in the claims is
an exact binary fraction, so the float computation agrees). -/
structure Vendor where
  average_rating : ℚ
  total_ratings : ℕ
  deriving DecidableEq, Repr

/-- `Vendor.update_rating`: `total_score = avg*count + new`, increment the
count, then divide by the incremented count. -/
def Vendor.update_rating (v : Vendor) (new_rating : ℚ) : Vendor :=
  let total_score := v.average_rating * (v.total_ratings : ℚ) + new_rating
  let total_ratings := v.total_ratings + 1
  { average_rating := total_score / (total_ratings : ℚ),
    total_ratings := total_ratings }

end VendorSvc

namespace Pricing

/-- `ROUND_HALF_UP` quantization to two decimal places, as performed by
`Decimal.quantize(Decimal('0.01'), rounding=ROUND_HALF_UP)`: ties round
away from zero. -/
def quantize2 (x : ℚ) : ℚ :=
  if x < 0 then -((⌊(-x) * 100 + 1/2⌋ : ℚ) / 100)
  else (⌊x * 100 + 1/2⌋ : ℚ) / 100

/-- The fixed `route_multipliers` table of
`PricingEngine._get_fuel_surcharge_rate`,
`src/services/quotation/quotation-service/src/services/pricing_engine.py`. -/
def route_multipliers : List (String × ℚ) :=
  [("SGSIN-EGALY", 12/10), ("SGSIN-USNYC", 15/10), ("SGSIN-NLRTM", 11/10)]

/-- `PricingEngine._get_fuel_surcharge_rate`: base rate `120.00` times the
route multiplier (default `1.0`), quantized half-up to two decimals.
(The 1-hour `@cached` wrapper only memoizes this pure computation.) -/
def get_fuel_surcharge_rate (origin destination : String) : ℚ :=
  let base_rate : ℚ := 120
  let route_key := origin ++ "-" ++ destination
  let multiplier := ((route_multipliers.lookup route_key).getD 1)
  quantize2 (base_rate * multiplier)

end Pricing

namespace Notif

/-- `NotificationStatus` enum,
`src/services/notifications/notifications-service/src/models/notification.py`. -/
inductive NotificationStatus
  | PENDING | SENT | DELIVERED | READ | FAILED | CANCELLED
  deriving DecidableEq, Repr

/-- `NotificationType` enum. -/
inductive NotificationType
  | QUOTE_CREATED | QUOTE_UPDATED | QUOTE_EXPIRED
  | BOOKING_CONFIRMED | BOOKING_CANCELLED
  | SHIPMENT_STATUS_UPDATE | SHIPMENT_DELIVERED
  | PAYMENT_DUE | PAYMENT_RECEIVED
  | DOCUMENT_READY | SYSTEM_ALERT | MARKETING | REMINDER
  | WELCOME | PASSWORD_RESET
  deriving DecidableEq, Repr

/-- `NotificationPriority` enum. -/
inductive NotificationPriority
  | LOW | NORMAL | HIGH | URGENT
  deriving DecidableEq, Repr

/-- `NotificationChannel` enum. -/
inductive NotificationChannel
  | EMAIL | SMS | PUSH | IN_APP | WEBHOOK
  deriving DecidableEq, Repr

/-- `NotificationDelivery` dataclass (fields relevant to the claims). -/
structure NotificationDelivery where
  channel : NotificationChannel
  status : String
  attempt_number : ℕ
  deriving DecidableEq, Repr

/-- `NotificationPreference` dataclass: the per-channel and per-category
boolean preference columns. -/
structure NotificationPreference where
  email_enabled : Bool
  sms_enabled : Bool
  push_enabled : Bool
  in_app_enabled : Bool
  quote_notifications : Bool
  booking_notifications : Bool
  shipment_notifications : Bool
  payment_notifications : Bool
  marketing_notifications : Bool
  system_notifications : Bool
  deriving DecidableEq, Repr

/-- `NotificationPreference.is_channel_enabled`: the `channel_map` dict;
`WEBHOOK` is absent from the dict so `.get(channel, False)` yields `False`. -/
def NotificationPreference.is_channel_enabled
    (p : NotificationPreference) : NotificationChannel → Bool
  | .EMAIL => p.email_enabled
  | .SMS => p.sms_enabled
  | .PUSH => p.push_enabled
  | .IN_APP => p.in_app_enabled
  | .WEBHOOK => false

/-- `NotificationPreference.is_type_enabled`: the `type_map` dict; types
absent from it (`DOCUMENT_READY`, `REMINDER`, `WELCOME`, `PASSWORD_RESET`)
fall back to `.get(notification_type, True)`. -/
def NotificationPreference.is_type_enabled
    (p : NotificationPreference) : NotificationType → Bool
  | .QUOTE_CREATED => p.quote_notifications
  | .QUOTE_UPDATED => p.quote_notifications
  | .QUOTE_EXPIRED => p.quote_notifications
  | .BOOKING_CONFIRMED => p.booking_notifications
  | .BOOKING_CANCELLED => p.booking_notifications
  | .SHIPMENT_STATUS_UPDATE => p.shipment_notifications
  | .SHIPMENT_DELIVERED => p.shipment_notifications
  | .PAYMENT_DUE => p.payment_notifications
  | .PAYMENT_RECEIVED => p.payment_notifications
  | .MARKETING => p.marketing_notifications
  | .SYSTEM_ALERT => p.system_notifications
  | .DOCUMENT_READY => true
  | .REMINDER => true
  | .WELCOME => true
  | .PASSWORD_RESET => true

/-- `Notification` dataclass (fields relevant to the claims).  Timestamps
are `Int`; `read_at` starts as `None`. -/
structure Notification where
  recipient_id : String
  notification_type : NotificationType
  title : String
  content : String
  channels : List NotificationChannel
  priority : NotificationPriority
  status : NotificationStatus
  read_at : Option Int
  delivery_attempts : List NotificationDelivery
  updated_at : Int
  deriving DecidableEq, Repr

/-- `Notification.add_delivery_attempt`: appends an attempt whose
`attempt_number` is one more than the count of prior attempts on the same
channel, and bumps `updated_at`. -/
def Notification.add_delivery_attempt (n : Notification)
    (channel : NotificationChannel) (now : Int) : Notification :=
  let attempt : NotificationDelivery :=
    { channel := channel,
      status := "PENDING",
      attempt_number :=
        (n.delivery_attempts.filter (fun d => d.channel = channel)).length + 1 }
  { n with delivery_attempts := n.delivery_attempts ++ [attempt], updated_at := now }

/-- `Notification.mark_as_read`: unconditionally sets status `READ` and
stamps `read_at`/`updated_at`; no check of the prior status. -/
def Notification.mark_as_read (n : Notification) (now : Int) : Notification :=
  { n with status := .READ, read_at := some now, updated_at := now }

/-- Error kind raised by `NotificationService` (`werkzeug` `BadRequest`,
the spec's `InvalidInput` kind / HTTP 400). -/
inductive NotifError
  | badRequest (msg : String)
  deriving DecidableEq, Repr

/-- Python's `str.upper()` (ASCII inputs), stated structurally over the
character list so that concrete instances reduce. -/
def pyUpper (s : String) : String :=
  ⟨s.data.map Char.toUpper⟩

/-- `NotificationType(notification_type.upper())`: enum lookup by value. -/
def parse_type (s : String) : Except NotifError NotificationType :=
  match pyUpper s with
  | "QUOTE_CREATED" => .ok .QUOTE_CREATED
  | "QUOTE_UPDATED" => .ok .QUOTE_UPDATED
  | "QUOTE_EXPIRED" => .ok .QUOTE_EXPIRED
  | "BOOKING_CONFIRMED" => .ok .BOOKING_CONFIRMED
  | "BOOKING_CANCELLED" => .ok .BOOKING_CANCELLED
  | "SHIPMENT_STATUS_UPDATE" => .ok .SHIPMENT_STATUS_UPDATE
  | "SHIPMENT_DELIVERED" => .ok .SHIPMENT_DELIVERED
  | "PAYMENT_DUE" => .ok .PAYMENT_DUE
  | "PAYMENT_RECEIVED" => .ok .PAYMENT_RECEIVED
  | "DOCUMENT_READY" => .ok .DOCUMENT_READY
  | "SYSTEM_ALERT" => .ok .SYSTEM_ALERT
  | "MARKETING" => .ok .MARKETING
  | "REMINDER" => .ok .REMINDER
  | "WELCOME" => .ok .WELCOME
  | "PASSWORD_RESET" => .ok .PASSWORD_RESET
  | _ => .error (.badRequest ("Invalid notification type: " ++ s))

/-- `NotificationPriority(priority.upper())`: enum lookup by value. -/
def parse_priority (s : String) : Except NotifError NotificationPriority :=
  match pyUpper s with
  | "LOW" => .ok .LOW
  | "NORMAL" => .ok .NORMAL
  | "HIGH" => .ok .HIGH
  | "URGENT" => .ok .URGENT
  | _ => .error (.badRequest ("Invalid priority: " ++ s))

/-- `NotificationChannel(channel.upper())`: enum lookup by value. -/
def parse_channel (s : String) : Except NotifError NotificationChannel :=
  match pyUpper s with
  | "EMAIL" => .ok .EMAIL
  | "SMS" => .ok .SMS
  | "PUSH" => .ok .PUSH
  | "IN_APP" => .ok .IN_APP
  | "WEBHOOK" => .ok .WEBHOOK
  | _ => .error (.badRequest ("Invalid channel: " ++ s))

/-- The channel-parsing block of `create_notification`: a `None` or empty
list (both falsy in `if channels:`) defaults to `[EMAIL]`, otherwise each
entry is parsed, failing on the first invalid one. -/
def parse_channels : Option (List String) → Except NotifError (List NotificationChannel)
  | none => .ok [.EMAIL]
  | some [] => .ok [.EMAIL]
  | some cs => cs.mapM parse_channel

/-- The preference-narrowing filter of `create_notification`: keep a
requested channel only if both `is_channel_enabled` and `is_type_enabled`
pass. -/
def narrowed (preferences : NotificationPreference) (ty : NotificationType)
    (parsed_channels : List NotificationChannel) : List NotificationChannel :=
  parsed_channels.filter
    (fun c => preferences.is_channel_enabled c && preferences.is_type_enabled ty)

/-- `NotificationService.create_notification`,
`src/services/notifications/notifications-service/src/services/notification_service.py`:
parse type/priority/channels; when the recipient has a
`NotificationPreference` record, narrow the channels (falling back to
`[IN_APP]` via `enabled_channels or [IN_APP]` when everything is filtered
out); build the notification; then record one delivery attempt per final
channel.  The preference store is passed in as `prefsOf` (the
`get_user_preferences` lookup); persistence, caching, the scheduled-at
parse and the published event do not affect the returned value. -/
def create_notification (prefsOf : String → Option NotificationPreference)
    (recipient_id notification_type title content : String)
    (channels : Option (List String)) (priority : String)
    (now : Int) : Except NotifError Notification := do
  let parsed_type ← parse_type notification_type
  let parsed_priority ← parse_priority priority
  let parsed_channels ← parse_channels channels
  let parsed_channels :=
    match prefsOf recipient_id with
    | some preferences =>
      let enabled_channels := narrowed preferences parsed_type parsed_channels
      if enabled_channels.isEmpty then [.IN_APP] else enabled_channels
    | none => parsed_channels
  let notification : Notification :=
    { recipient_id := recipient_id,
      notification_type := parsed_type,
      title := title,
      content := content,
      channels := parsed_channels,
      priority := parsed_priority,
      status := .PENDING,
      read_at := none,
      delivery_attempts := [],
      updated_at := now }
  let notification :=
    parsed_channels.foldl (fun n c => n.add_delivery_attempt c now) notification
  pure notification

end Notif

namespace BookingSvc

/-- `ShipmentStatus` enum,
`src/services/booking/booking-service/src/models/booking.py`. -/
inductive ShipmentStatus
  | BOOKED | PICKUP_SCHEDULED | PICKED_UP | IN_TRANSIT
  | CUSTOMS_CLEARANCE | OUT_FOR_DELIVERY | DELIVERED | EXCEPTION
  deriving DecidableEq, Repr

/-- `ContainerType` enum: member names on the left, stored string values
on the right of the Python `Enum` (captured by `ContainerType.value`). -/
inductive ContainerType
  | DRY_20 | DRY_40 | DRY_40_HC | REEFER_20 | REEFER_40
  | OPEN_TOP_20 | OPEN_TOP_40 | FLAT_RACK_20 | FLAT_RACK_40
  deriving DecidableEq, Repr

/-- The `.value` of each `ContainerType` member. -/
def ContainerType.value : ContainerType → String
  | .DRY_20 => "20FT_DRY"
  | .DRY_40 => "40FT_DRY"
  | .DRY_40_HC => "40FT_HC_DRY"
  | .REEFER_20 => "20FT_REEFER"
  | .REEFER_40 => "40FT_REEFER"
  | .OPEN_TOP_20 => "20FT_OPEN_TOP"
  | .OPEN_TOP_40 => "40FT_OPEN_TOP"
  | .FLAT_RACK_20 => "20FT_FLAT_RACK"
  | .FLAT_RACK_40 => "40FT_FLAT_RACK"

/-- `ContainerType(s)`: Python enum construction looks a member up by its
VALUE and raises `ValueError` when no member has that value. -/
def containerTypeOfValue (s : String) : Option ContainerType :=
  if s = "20FT_DRY" then some .DRY_20
  else if s = "40FT_DRY" then some .DRY_40
  else if s = "40FT_HC_DRY" then some .DRY_40_HC
  else if s = "20FT_REEFER" then some .REEFER_20
  else if s = "40FT_REEFER" then some .REEFER_40
  else if s = "20FT_OPEN_TOP" then some .OPEN_TOP_20
  else if s = "40FT_OPEN_TOP" then some .OPEN_TOP_40
  else if s = "20FT_FLAT_RACK" then some .FLAT_RACK_20
  else if s = "40FT_FLAT_RACK" then some .FLAT_RACK_40
  else none

/-- `TrackingEvent` dataclass (fields relevant to the claims);
`event_time` is an `Int` timestamp. -/
structure TrackingEvent where
  shipment_id : String
  status : ShipmentStatus
  location : String
  description : String
  event_time : Int
  vessel_name : Option String
  voyage_number : Option String
  deriving DecidableEq, Repr

/-- `Shipment` dataclass (fields relevant to the claims). -/
structure Shipment where
  id : String
  status : ShipmentStatus
  tracking_events : List TrackingEvent
  updated_at : Int
  deriving DecidableEq, Repr

/-- `Shipment.add_tracking_event`: builds the event (defaulting
`event_time` to now), APPENDS it to `tracking_events`, and sets
`status` to the event's status.  Returns the updated shipment and the
event, mirroring the Python method's mutation plus return value. -/
def Shipment.add_tracking_event (s : Shipment) (status : ShipmentStatus)
    (location description : String) (event_time : Option Int)
    (vessel_name voyage_number : Option String) (now : Int) :
    Shipment × TrackingEvent :=
  let event : TrackingEvent :=
    { shipment_id := s.id,
      status := status,
      location := location,
      description := description,
      event_time := event_time.getD now,
      vessel_name := vessel_name,
      voyage_number := voyage_number }
  ({ s with tracking_events := s.tracking_events ++ [event],
            status := status,
            updated_at := now }, event)

/-- The event-time order used by `sorted(self.tracking_events, key=lambda x: x.event_time)`. -/
def evLE (a b : TrackingEvent) : Prop := a.event_time ≤ b.event_time

instance : DecidableRel evLE := fun a b => Int.decLe a.event_time b.event_time

instance : IsTotal TrackingEvent evLE := ⟨fun a b => Int.le_total a.event_time b.event_time⟩

instance : IsTrans TrackingEvent evLE := ⟨fun _ _ _ h h' => le_trans h h'⟩

/-- The `tracking_events` entry of `Shipment.to_dict`: the stored events
sorted (stably) by `event_time`. -/
def Shipment.serialized_events (s : Shipment) : List TrackingEvent :=
  s.tracking_events.insertionSort evLE

/-- `Booking` model fields relevant to access control. -/
structure Booking where
  id : String
  quote_id : String
  customer_id : String
  created_by : String
  deriving DecidableEq, Repr

/-- `BookingEngine._can_access_booking`: creator or admin.  The role
check `_is_admin` is injected as `isAdmin` (in the reference code it is a
stub, see `is_admin_demo`). -/
def can_access_booking (isAdmin : String → Bool) (booking : Booking)
    (user_id : String) : Bool :=
  (booking.created_by == user_id) || isAdmin user_id

/-- `BookingEngine._is_admin` as literally written in the reference
implementation: `return True` for demo purposes. -/
def is_admin_demo (_user_id : String) : Bool := true

/-- `BookingEngine.get_booking`: cache-then-store read, with the same
`_can_access_booking` check on both paths; `None` (NotFound at the route
layer) when the booking is absent or the caller may not see it.  The
cache and database are passed as lookup functions; the cache write-back
on a store hit does not affect the returned value. -/
def get_booking (cache store : String → Option Booking)
    (isAdmin : String → Bool) (booking_id user_id : String) : Option Booking :=
  match cache booking_id with
  | some booking =>
    if can_access_booking isAdmin booking user_id then some booking else none
  | none =>
    match store booking_id with
    | none => none
    | some booking =>
      if can_access_booking isAdmin booking user_id then some booking else none

/-- `Container` dataclass fields used by allocation.  The uuid-derived
`id`/`container_number` suffix is abstracted to a position index. -/
structure Container where
  id : String
  container_number : String
  container_type : ContainerType
  status : String
  location : String
  deriving DecidableEq, Repr

/-- A `container_requirements` entry: `requirement.get('type', 'DRY_20')`
and `requirement.get('quantity', 1)` mean both keys are optional. -/
structure ContainerRequirement where
  ctype : Option String
  quantity : Option ℕ
  deriving DecidableEq, Repr

/-- Error kinds escaping `BookingEngine._allocate_containers`: the
`werkzeug` `BadRequest` (the spec's InvalidInput kind) raised on
insufficient inventory, versus the bare Python `ValueError` raised by
`ContainerType(...)` on an unknown value, which nothing catches. -/
inductive EngineError
  | valueError (msg : String)
  | badRequest (msg : String)
  deriving DecidableEq, Repr

/-- `BookingEngine._find_available_containers`: returns `quantity` mock
`AVAILABLE` containers of the requested type. -/
def find_available_containers (container_type : ContainerType)
    (quantity : ℕ) : List Container :=
  (List.range quantity).map (fun i =>
    { id := container_type.value ++ "#" ++ toString i,
      container_number := container_type.value ++ "-" ++ toString i,
      container_type := container_type,
      status := "AVAILABLE",
      location := "Port Warehouse" })

/-- The `ValueError` message raised by `ContainerType(value)` on an
unknown value (quotes around the value elided). -/
def valueErrorMsg (value : String) : String :=
  value ++ " is not a valid ContainerType"

/-- `BookingEngine._allocate_containers`: per requirement, construct the
`ContainerType` from the requested value (defaulting the string to
`'DRY_20'`!), find available containers, fail with `BadRequest` when
fewer than `quantity` are available, otherwise allocate the first
`quantity` and collect their ids. -/
def allocate_containers : List ContainerRequirement → Except EngineError (List String)
  | [] => .ok []
  | requirement :: rest =>
    match containerTypeOfValue (requirement.ctype.getD "DRY_20") with
    | none =>
      .error (.valueError (valueErrorMsg (requirement.ctype.getD "DRY_20")))
    | some container_type =>
      let quantity := requirement.quantity.getD 1
      let available := find_available_containers container_type quantity
      if available.length < quantity then
        .error (.badRequest
          ("Not enough " ++ container_type.value ++ " containers available"))
      else do
        let ids ← allocate_containers rest
        pure (((available.take quantity).map (fun c => c.id)) ++ ids)


/-- The caller-supplied arguments of one `add_tracking_event` call. -/
structure TrackingCall where
  status : ShipmentStatus
  location : String
  description : String
  event_time : Option Int
  vessel_name : Option String
  voyage_number : Option String
  deriving DecidableEq, Repr

/-- Apply a sequence of `add_tracking_event` calls to a shipment in order
(each call keeps the updated shipment, as the Python mutation does). -/
def Shipment.apply_calls (s : Shipment) (calls : List TrackingCall) (now : Int) : Shipment :=
  calls.foldl
    (fun sh c =>
      (sh.add_tracking_event c.status c.location c.description c.event_time
        c.vessel_name c.voyage_number now).1) s

end BookingSvc

/-! ## Claim theorems -/

/-- C1: `accept()` succeeds — setting status to `ACCEPTED` and recording
`accepted_at` — iff the current time is not after `valid_until` and the
status is `ISSUED` or `DRAFT`; otherwise it raises InvalidInput.  In
particular a never-issued `DRAFT` quote within its validity window can be
accepted directly, and `issue()` raises InvalidInput unless the status is
currently `DRAFT`. -/
theorem quote_accept_iff_valid (now : Int) (q : Quotation.Quote) :
    ((∃ q', Quotation.Quote.accept now q = .ok q') ↔
      (now ≤ q.valid_until ∧ (q.status = "ISSUED" ∨ q.status = "DRAFT"))) ∧
    (∀ q', Quotation.Quote.accept now q = .ok q' →
      q'.status = "ACCEPTED" ∧ q'.accepted_at = some now) ∧
    (¬ (now ≤ q.valid_until ∧ (q.status = "ISSUED" ∨ q.status = "DRAFT")) →
      Quotation.Quote.accept now q =
        .error (.invalidInput "Cannot accept expired or invalid quote")) ∧
    (q.status = "DRAFT" → now ≤ q.valid_until →
      Quotation.Quote.accept now q =
        .ok { q with status := "ACCEPTED", accepted_at := some now }) ∧
    ((∃ q', Quotation.Quote.issue now q = .ok q') ↔ q.status = "DRAFT") ∧
    (q.status ≠ "DRAFT" →
      Quotation.Quote.issue now q =
        .error (.invalidInput "Can only issue draft quotes")) := by
  have hval : (Quotation.Quote.is_valid now q = true) ↔
      (now ≤ q.valid_until ∧ (q.status = "ISSUED" ∨ q.status = "DRAFT")) := by
    simp [Quotation.Quote.is_valid, beq_iff_eq]
  constructor
  · constructor
    · rintro ⟨q', hq'⟩
      rw [Quotation.Quote.accept] at hq'
      by_cases h : Quotation.Quote.is_valid now q = true
      · exact hval.mp h
      · simp [h] at hq'
    · intro h
      refine ⟨{ q with status := "ACCEPTED", accepted_at := some now }, ?_⟩
      rw [Quotation.Quote.accept, if_pos (hval.mpr h)]
  refine ⟨?_, ?_, ?_, ?_, ?_⟩
  · intro q' hq'
    rw [Quotation.Quote.accept] at hq'
    by_cases h : Quotation.Quote.is_valid now q = true
    · rw [if_pos h] at hq'
      cases hq'
      exact ⟨rfl, rfl⟩
    · simp [h] at hq'
  · intro h
    rw [Quotation.Quote.accept, if_neg]
    intro hv
    exact h (hval.mp hv)
  · intro hd hle
    rw [Quotation.Quote.accept, if_pos (hval.mpr ⟨hle, Or.inr hd⟩)]
  · constructor
    · rintro ⟨q', hq'⟩
      rw [Quotation.Quote.issue] at hq'
      by_cases h : q.status = "DRAFT"
      · exact h
      · simp [h] at hq'
    · intro h
      refine ⟨{ q with status := "ISSUED", issued_at := some now }, ?_⟩
      rw [Quotation.Quote.issue]
      simp [h]
  · intro h
    rw [Quotation.Quote.issue]
    simp [h]

/-- C1 witness: a concrete `DRAFT` quote inside its validity window is
accepted directly, and issuing a non-`DRAFT` quote fails. -/
theorem quote_accept_iff_valid_witness :
    Quotation.Quote.accept 3 ⟨"DRAFT", 10, none, none⟩ =
      .ok ⟨"ACCEPTED", 10, some 3, none⟩ ∧
    Quotation.Quote.issue 3 ⟨"ACCEPTED", 10, none, none⟩ =
      .error (.invalidInput "Can only issue draft quotes") := by
  have h := quote_accept_iff_valid 3 ⟨"DRAFT", 10, none, none⟩
  have h2 := quote_accept_iff_valid 3 ⟨"ACCEPTED", 10, none, none⟩
  exact ⟨h.2.2.2.1 rfl (by decide), h2.2.2.2.2.2 (by decide)⟩

/-- C3: `calculate_score()` equals probability + source points + priority
points + value-tier points + recency points, capped at 100 (so it never
exceeds 100), and the lead with probability 100, source `REFERRAL`,
priority `URGENT`, estimated value 150000 and last contact now (0 days
ago) scores exactly 100, clamped from a raw 165. -/
theorem lead_calculate_score_formula :
    (∀ l : CRM.Lead, CRM.Lead.calculate_score l = CRM.leadScoreSpec l) ∧
    (∀ l : CRM.Lead, CRM.Lead.calculate_score l ≤ 100) ∧
    CRM.Lead.calculate_score ⟨.REFERRAL, .URGENT, some 150000, 100, some 0⟩ = 100 ∧
    100 + CRM.source_scores .REFERRAL + CRM.priority_scores .URGENT +
      CRM.valueTierPointsSpec (some 150000) + CRM.recencyPointsSpec (some 0) = 165 := by
  refine ⟨?_, ?_, ?_, ?_⟩
  · rintro ⟨src, prio, ev, prob, dsc⟩
    cases dsc <;> cases ev with
    | none => rfl
    | some v =>
      by_cases hv : v = 0
      · subst hv
        simp only [CRM.Lead.calculate_score, CRM.leadScoreSpec, CRM.valueTierPointsSpec,
          CRM.recencyPointsSpec]
        norm_num
      · simp only [CRM.Lead.calculate_score, CRM.leadScoreSpec, CRM.valueTierPointsSpec,
          CRM.recencyPointsSpec, if_neg hv]
  · intro l
    unfold CRM.Lead.calculate_score
    exact min_le_right _ _
  · norm_num [CRM.Lead.calculate_score, CRM.source_scores, CRM.priority_scores]
  · norm_num [CRM.source_scores, CRM.priority_scores, CRM.valueTierPointsSpec,
      CRM.recencyPointsSpec]

/-- C4: `update_rating` sets the average to
`(old_average × old_count + new_rating) / (old_count + 1)` and increments
the count; folding the ratings `[4, 5, 3]` over an initially-zero vendor
yields running averages `4.0, 4.5, 4.0` and a final count of 3. -/
theorem vendor_update_rating_fold :
    (∀ (v : VendorSvc.Vendor) (r : ℚ),
      (v.update_rating r).average_rating =
        (v.average_rating * (v.total_ratings : ℚ) + r) / ((v.total_ratings : ℚ) + 1) ∧
      (v.update_rating r).total_ratings = v.total_ratings + 1) ∧
    ((VendorSvc.Vendor.update_rating ⟨0, 0⟩ 4).average_rating = 4 ∧
     ((VendorSvc.Vendor.update_rating ⟨0, 0⟩ 4).update_rating 5).average_rating = 4.5 ∧
     (((VendorSvc.Vendor.update_rating ⟨0, 0⟩ 4).update_rating 5).update_rating 3).average_rating = 4 ∧
     (((VendorSvc.Vendor.update_rating ⟨0, 0⟩ 4).update_rating 5).update_rating 3).total_ratings = 3) := by
  constructor
  · intro v r
    constructor
    · show (v.average_rating * (v.total_ratings : ℚ) + r) / (((v.total_ratings + 1 : ℕ)) : ℚ) = _
      push_cast
      ring
    · rfl
  · refine ⟨?_, ?_, ?_, rfl⟩ <;> norm_num [VendorSvc.Vendor.update_rating]

/-- C8: `update_rating` never divides by zero — the count is incremented
before the division, so the denominator is `old_count + 1 ≥ 1` — and
applying it to a vendor with zero average and zero count yields an
average equal to the new rating. -/
theorem vendor_update_rating_safe (v : VendorSvc.Vendor) (r : ℚ) :
    (v.update_rating r).total_ratings = v.total_ratings + 1 ∧
    1 ≤ (v.update_rating r).total_ratings ∧
    (v.total_ratings = 0 → v.average_rating = 0 →
      (v.update_rating r).average_rating = r) := by
  refine ⟨rfl, Nat.succ_le_succ (Nat.zero_le _), ?_⟩
  intro hcount havg
  rcases v with ⟨avg, cnt⟩
  simp only at hcount havg
  subst hcount
  subst havg
  norm_num [VendorSvc.Vendor.update_rating]

/-- C8 witness: rating a never-rated vendor with 5 yields average 5 and
count 1. -/
theorem vendor_update_rating_safe_witness :
    (VendorSvc.Vendor.update_rating ⟨0, 0⟩ 5).total_ratings = 1 ∧
    (VendorSvc.Vendor.update_rating ⟨0, 0⟩ 5).average_rating = 5 := by
  have h := vendor_update_rating_safe ⟨0, 0⟩ 5
  exact ⟨h.1, h.2.2 rfl rfl⟩

/-- C5: the fuel surcharge is `120.00` times the route multiplier from the
fixed lane table, rounded half-up to two decimals: `SGSIN-EGALY` yields
exactly `144.00`, the other two listed lanes yield `180.00` and `132.00`,
every unlisted route yields exactly `120.00`, and no other value ever
occurs. -/
theorem pricing_fuel_surcharge :
    Pricing.get_fuel_surcharge_rate "SGSIN" "EGALY" = 144 ∧
    Pricing.get_fuel_surcharge_rate "SGSIN" "USNYC" = 180 ∧
    Pricing.get_fuel_surcharge_rate "SGSIN" "NLRTM" = 132 ∧
    (∀ origin destination : String,
      origin ++ "-" ++ destination ≠ "SGSIN-EGALY" →
      origin ++ "-" ++ destination ≠ "SGSIN-USNYC" →
      origin ++ "-" ++ destination ≠ "SGSIN-NLRTM" →
      Pricing.get_fuel_surcharge_rate origin destination = 120) ∧
    (∀ origin destination : String,
      Pricing.get_fuel_surcharge_rate origin destination = 144 ∨
      Pricing.get_fuel_surcharge_rate origin destination = 180 ∨
      Pricing.get_fuel_surcharge_rate origin destination = 132 ∨
      Pricing.get_fuel_surcharge_rate origin destination = 120) := by
  have hdefault : ∀ origin destination : String,
      origin ++ "-" ++ destination ≠ "SGSIN-EGALY" →
      origin ++ "-" ++ destination ≠ "SGSIN-USNYC" →
      origin ++ "-" ++ destination ≠ "SGSIN-NLRTM" →
      Pricing.get_fuel_surcharge_rate origin destination = 120 := by
    intro origin destination h1 h2 h3
    simp [Pricing.get_fuel_surcharge_rate, Pricing.route_multipliers, List.lookup,
      beq_eq_false_iff_ne.mpr h1, beq_eq_false_iff_ne.mpr h2, beq_eq_false_iff_ne.mpr h3] <;>
      norm_num [Pricing.quantize2]
  have hEGALY : Pricing.get_fuel_surcharge_rate "SGSIN" "EGALY" = 144 := by
    simp [Pricing.get_fuel_surcharge_rate, Pricing.route_multipliers, List.lookup] <;>
      norm_num [Pricing.quantize2]
  have hUSNYC : Pricing.get_fuel_surcharge_rate "SGSIN" "USNYC" = 180 := by
    simp [Pricing.get_fuel_surcharge_rate, Pricing.route_multipliers, List.lookup] <;>
      norm_num [Pricing.quantize2]
  have hNLRTM : Pricing.get_fuel_surcharge_rate "SGSIN" "NLRTM" = 132 := by
    simp [Pricing.get_fuel_surcharge_rate, Pricing.route_multipliers, List.lookup] <;>
      norm_num [Pricing.quantize2]
  refine ⟨hEGALY, hUSNYC, hNLRTM, hdefault, ?_⟩
  intro origin destination
  by_cases h1 : origin ++ "-" ++ destination = "SGSIN-EGALY"
  · left
    simp [Pricing.get_fuel_surcharge_rate, Pricing.route_multipliers, List.lookup, h1] <;>
      norm_num [Pricing.quantize2]
  by_cases h2 : origin ++ "-" ++ destination = "SGSIN-USNYC"
  · right; left
    simp [Pricing.get_fuel_surcharge_rate, Pricing.route_multipliers, List.lookup, h2] <;>
      norm_num [Pricing.quantize2]
  by_cases h3 : origin ++ "-" ++ destination = "SGSIN-NLRTM"
  · right; right; left
    simp [Pricing.get_fuel_surcharge_rate, Pricing.route_multipliers, List.lookup, h3] <;>
      norm_num [Pricing.quantize2]
  · right; right; right
    exact hdefault origin destination h1 h2 h3

/-- C5 witness: the unlisted route `USNYC-CNSHA` yields exactly `120`. -/
theorem pricing_fuel_surcharge_witness :
    Pricing.get_fuel_surcharge_rate "USNYC" "CNSHA" = 120 :=
  pricing_fuel_surcharge.2.2.2.1 "USNYC" "CNSHA" (by decide) (by decide) (by decide)

/-- C9: `mark_as_read()` unconditionally sets status `READ` and stamps
`read_at`, whatever the prior status — including `FAILED` and
`CANCELLED` — so `READ` is reachable from every status. -/
theorem notification_mark_as_read_unconditional
    (n : Notif.Notification) (now : Int) :
    (n.mark_as_read now).status = .READ ∧
    (n.mark_as_read now).read_at = some now ∧
    (n.mark_as_read now).updated_at = now ∧
    (∀ s : Notif.NotificationStatus,
      (Notif.Notification.mark_as_read { n with status := s } now).status = .READ) := by
  exact ⟨rfl, rfl, rfl, fun _ => rfl⟩

/-- C2: `get_booking` returns `none` (NotFound) both when the booking is
absent from cache and store, and when it exists but was created by a
different user whom the role check does not class as an administrator —
and the two outcomes are the very same value, so the caller cannot tell
whether the booking exists. -/
theorem get_booking_notfound_indistinguishable
    (cache store : String → Option BookingSvc.Booking) (isAdmin : String → Bool)
    (booking_id user_id : String) :
    (cache booking_id = none → store booking_id = none →
      BookingSvc.get_booking cache store isAdmin booking_id user_id = none) ∧
    (∀ b : BookingSvc.Booking,
      (cache booking_id = some b ∨ (cache booking_id = none ∧ store booking_id = some b)) →
      b.created_by ≠ user_id → isAdmin user_id = false →
      BookingSvc.get_booking cache store isAdmin booking_id user_id = none) ∧
    (∀ (cache' store' : String → Option BookingSvc.Booking) (id' : String)
       (b : BookingSvc.Booking),
      cache' id' = none → store' id' = none →
      (cache booking_id = some b ∨ (cache booking_id = none ∧ store booking_id = some b)) →
      b.created_by ≠ user_id → isAdmin user_id = false →
      BookingSvc.get_booking cache store isAdmin booking_id user_id =
        BookingSvc.get_booking cache' store' isAdmin id' user_id) := by
  have habsent : ∀ (c s : String → Option BookingSvc.Booking) (i : String),
      c i = none → s i = none →
      BookingSvc.get_booking c s isAdmin i user_id = none := by
    intro c s i hc hs
    unfold BookingSvc.get_booking
    rw [hc, hs]
  have hdeny : ∀ b : BookingSvc.Booking,
      (cache booking_id = some b ∨ (cache booking_id = none ∧ store booking_id = some b)) →
      b.created_by ≠ user_id → isAdmin user_id = false →
      BookingSvc.get_booking cache store isAdmin booking_id user_id = none := by
    intro b hb hcreator hadmin
    have hacc : BookingSvc.can_access_booking isAdmin b user_id = false := by
      simp [BookingSvc.can_access_booking, hadmin, hcreator]
    unfold BookingSvc.get_booking
    rcases hb with h | ⟨hc, hs⟩
    · rw [h]
      simp [hacc]
    · rw [hc, hs]
      simp [hacc]
  refine ⟨habsent cache store booking_id, hdeny, ?_⟩
  intro cache' store' id' b hc' hs' hb hcreator hadmin
  rw [hdeny b hb hcreator hadmin, habsent cache' store' id' hc' hs']

/-- C2 witness: a booking created by alice is invisible to non-admin bob,
and indistinguishable from a booking id that does not exist at all. -/
theorem get_booking_notfound_indistinguishable_witness :
    BookingSvc.get_booking (fun _ => none)
      (fun i => if i = "b1" then some ⟨"b1", "q1", "c1", "alice"⟩ else none)
      (fun _ => false) "b1" "bob" = none ∧
    BookingSvc.get_booking (fun _ => none) (fun _ => none)
      (fun _ => false) "b1" "bob" = none ∧
    BookingSvc.get_booking (fun _ => none)
      (fun i => if i = "b1" then some ⟨"b1", "q1", "c1", "alice"⟩ else none)
      (fun _ => false) "b1" "bob" =
    BookingSvc.get_booking (fun _ => none) (fun _ => none)
      (fun _ => false) "b1" "bob" := by
  have h := get_booking_notfound_indistinguishable (fun _ => none)
    (fun i => if i = "b1" then some ⟨"b1", "q1", "c1", "alice"⟩ else none)
    (fun _ => false) "b1" "bob"
  have h2 := get_booking_notfound_indistinguishable (fun _ => none)
    (fun _ : String => none) (fun _ => false) "b1" "bob"
  refine ⟨?_, h2.1 rfl rfl, ?_⟩
  · exact h.2.1 ⟨"b1", "q1", "c1", "alice"⟩ (Or.inr ⟨rfl, by simp⟩) (by simp) rfl
  · exact h.2.2 (fun _ => none) (fun _ => none) "b1" ⟨"b1", "q1", "c1", "alice"⟩
      rfl rfl (Or.inr ⟨rfl, by simp⟩) (by simp) rfl

/-- C10: when a container requirement omits the `type` key,
`_allocate_containers` raises an uncaught `ValueError` — never the
`BadRequest`/InvalidInput kind — because the default string `DRY_20` is a
`ContainerType` member NAME, not one of the enum's VALUES (those are
strings like `20FT_DRY`). -/
theorem allocate_containers_missing_type_value_error
    (requirement : BookingSvc.ContainerRequirement)
    (rest : List BookingSvc.ContainerRequirement)
    (h : requirement.ctype = none) :
    BookingSvc.allocate_containers (requirement :: rest) =
      .error (.valueError (BookingSvc.valueErrorMsg "DRY_20")) ∧
    (∀ msg, BookingSvc.allocate_containers (requirement :: rest) ≠
      .error (.badRequest msg)) ∧
    BookingSvc.containerTypeOfValue "DRY_20" = none ∧
    BookingSvc.ContainerType.DRY_20.value = "20FT_DRY" ∧
    BookingSvc.containerTypeOfValue "20FT_DRY" = some .DRY_20 := by
  have herr : BookingSvc.allocate_containers (requirement :: rest) =
      .error (.valueError (BookingSvc.valueErrorMsg "DRY_20")) := by
    rw [BookingSvc.allocate_containers, h]
    simp [BookingSvc.containerTypeOfValue]
  refine ⟨herr, ?_, by decide, rfl, by decide⟩
  intro msg hbad
  rw [herr] at hbad
  simp at hbad

/-- C10 witness: the concrete requirement list `[{quantity: 1}]` (no
`type` key) fails with the `ValueError`, not a `BadRequest`. -/
theorem allocate_containers_missing_type_value_error_witness :
    BookingSvc.allocate_containers [⟨none, some 1⟩] =
      .error (.valueError (BookingSvc.valueErrorMsg "DRY_20")) ∧
    BookingSvc.allocate_containers [⟨none, some 1⟩] ≠
      .error (.badRequest "Not enough 20FT_DRY containers available") := by
  have h := allocate_containers_missing_type_value_error ⟨none, some 1⟩ [] rfl
  exact ⟨h.1, h.2.1 "Not enough 20FT_DRY containers available"⟩

/-- C7: after any sequence of `add_tracking_event` calls the shipment's
status equals the status of the most recently APPENDED event — however
the callers chose the `event_time` values — while the serialized
`tracking_events` list of `to_dict` is sorted by `event_time`; appending
an event with an earlier `event_time` reorders the displayed history
(the event list is re-sorted) without handing status determination to
the chronologically-last event. -/
theorem shipment_status_last_appended :
    (∀ (s : BookingSvc.Shipment) (st : BookingSvc.ShipmentStatus)
       (location description : String) (event_time : Option Int)
       (vessel_name voyage_number : Option String) (now : Int),
      (s.add_tracking_event st location description event_time vessel_name
        voyage_number now).1.status = st ∧
      (s.add_tracking_event st location description event_time vessel_name
        voyage_number now).2.status = st ∧
      (s.add_tracking_event st location description event_time vessel_name
        voyage_number now).1.tracking_events =
        s.tracking_events ++
          [(s.add_tracking_event st location description event_time vessel_name
            voyage_number now).2]) ∧
    (∀ (s : BookingSvc.Shipment) (st : BookingSvc.ShipmentStatus)
       (location description : String) (t₁ t₂ : Option Int)
       (vessel_name voyage_number : Option String) (now : Int),
      (s.add_tracking_event st location description t₁ vessel_name
        voyage_number now).1.status =
      (s.add_tracking_event st location description t₂ vessel_name
        voyage_number now).1.status) ∧
    (∀ s : BookingSvc.Shipment, List.Sorted BookingSvc.evLE s.serialized_events) ∧
    (∀ (s : BookingSvc.Shipment) (now : Int)
       (calls : List BookingSvc.TrackingCall) (c : BookingSvc.TrackingCall),
      calls.getLast? = some c →
      (s.apply_calls calls now).status = c.status) := by
  refine ⟨fun s st l d et vn voy now => ⟨rfl, rfl, rfl⟩,
    fun s st l d t₁ t₂ vn voy now => rfl,
    fun s => List.sorted_insertionSort BookingSvc.evLE s.tracking_events, ?_⟩
  intro s now calls
  induction calls generalizing s with
  | nil => intro c hc; simp at hc
  | cons x xs ih =>
    intro c hc
    cases xs with
    | nil =>
      simp only [List.getLast?_singleton, Option.some.injEq] at hc
      subst hc
      rfl
    | cons y ys =>
      rw [List.getLast?_cons_cons] at hc
      exact ih _ c hc

/-- C7 witness: starting from a `BOOKED` shipment, appending `DELIVERED`
at time 100 and then `PICKED_UP` at the earlier time 5 leaves the status
at `PICKED_UP` (the last-appended event), not `DELIVERED`. -/
theorem shipment_status_last_appended_witness :
    (BookingSvc.Shipment.apply_calls ⟨"s1", .BOOKED, [], 0⟩
      [⟨.DELIVERED, "NYC", "arrived", some 100, none, none⟩,
       ⟨.PICKED_UP, "SIN", "backfill", some 5, none, none⟩] 7).status = .PICKED_UP :=
  shipment_status_last_appended.2.2.2 ⟨"s1", .BOOKED, [], 0⟩ 7
    [⟨.DELIVERED, "NYC", "arrived", some 100, none, none⟩,
     ⟨.PICKED_UP, "SIN", "backfill", some 5, none, none⟩]
    ⟨.PICKED_UP, "SIN", "backfill", some 5, none, none⟩ rfl

/-- Folding `add_delivery_attempt` over a channel list appends exactly one
attempt per channel, in order. -/
theorem foldl_add_delivery_attempt_map_channel
    (channels : List Notif.NotificationChannel) (n : Notif.Notification) (now : Int) :
    ((channels.foldl (fun m c => m.add_delivery_attempt c now) n).delivery_attempts).map
        (fun d => d.channel) =
      n.delivery_attempts.map (fun d => d.channel) ++ channels := by
  induction channels generalizing n with
  | nil => simp
  | cons c cs ih =>
    rw [List.foldl_cons, ih]
    simp [Notif.Notification.add_delivery_attempt]

/-- Folding `add_delivery_attempt` never touches the `channels` field. -/
theorem foldl_add_delivery_attempt_channels
    (channels : List Notif.NotificationChannel) (n : Notif.Notification) (now : Int) :
    (channels.foldl (fun m c => m.add_delivery_attempt c now) n).channels = n.channels := by
  induction channels generalizing n with
  | nil => rfl
  | cons c cs ih => rw [List.foldl_cons, ih]; rfl

/-- `SMS` survives the preference filter only if `sms_enabled` is set. -/
theorem sms_not_mem_narrowed (pref : Notif.NotificationPreference)
    (ty : Notif.NotificationType) (parsed : List Notif.NotificationChannel)
    (h : pref.sms_enabled = false) :
    Notif.NotificationChannel.SMS ∉ Notif.narrowed pref ty parsed := by
  intro hmem
  have := List.of_mem_filter hmem
  simp [Notif.NotificationPreference.is_channel_enabled, h] at this

/-- C6: when the recipient has a preference record, the requested channels
are narrowed by the per-channel and per-category checks, the created
notification records exactly one delivery attempt per final channel, a
recipient with `sms_enabled = false` never gets an `SMS` attempt, and if
every requested channel is filtered out the notification carries exactly
the single channel `IN_APP` with exactly one `IN_APP` attempt. -/
theorem create_notification_preference_narrowing
    (prefsOf : String → Option Notif.NotificationPreference)
    (recipient_id notification_type title content : String)
    (channels : Option (List String)) (priority : String) (now : Int)
    (pref : Notif.NotificationPreference) (n : Notif.Notification)
    (hpref : prefsOf recipient_id = some pref)
    (hok : Notif.create_notification prefsOf recipient_id notification_type title
      content channels priority now = .ok n) :
    (n.delivery_attempts.map (fun d => d.channel) = n.channels) ∧
    (∀ ty, Notif.parse_type notification_type = .ok ty →
      ∀ parsed, Notif.parse_channels channels = .ok parsed →
        n.channels =
          if (Notif.narrowed pref ty parsed).isEmpty then [.IN_APP]
          else Notif.narrowed pref ty parsed) ∧
    (pref.sms_enabled = false →
      Notif.NotificationChannel.SMS ∉ n.channels ∧
      ∀ d ∈ n.delivery_attempts, d.channel ≠ .SMS) ∧
    (∀ ty, Notif.parse_type notification_type = .ok ty →
      ∀ parsed, Notif.parse_channels channels = .ok parsed →
        Notif.narrowed pref ty parsed = [] →
        n.channels = [.IN_APP] ∧
        n.delivery_attempts.map (fun d => d.channel) = [.IN_APP]) := by
  rcases hty : Notif.parse_type notification_type with e | ty
  · rw [Notif.create_notification, hty] at hok
    simp [Bind.bind, Except.bind, Functor.map, Except.map] at hok
  rcases hprio : Notif.parse_priority priority with e | prio
  · rw [Notif.create_notification, hty, hprio] at hok
    simp [Bind.bind, Except.bind, Functor.map, Except.map] at hok
  rcases hch : Notif.parse_channels channels with e | parsed
  · rw [Notif.create_notification, hty, hprio, hch] at hok
    simp [Bind.bind, Except.bind, Functor.map, Except.map] at hok
  rw [Notif.create_notification, hty, hprio, hch, hpref] at hok
  simp only [Bind.bind, Except.bind, Functor.map, Except.map, Pure.pure, Except.pure,
    Except.ok.injEq] at hok
  set final :=
    (if (Notif.narrowed pref ty parsed).isEmpty then
      [Notif.NotificationChannel.IN_APP]
     else Notif.narrowed pref ty parsed) with hfinal
  have hchan : n.channels = final := by
    rw [← hok]
    rw [foldl_add_delivery_attempt_channels]
  have hmap : n.delivery_attempts.map (fun d => d.channel) = final := by
    rw [← hok, foldl_add_delivery_attempt_map_channel]
    simp
  refine ⟨by rw [hmap, hchan], ?_, ?_, ?_⟩
  · intro ty' hty' parsed' hch'
    cases hty'
    cases hch'
    exact hchan
  · intro hsms
    have hnot : Notif.NotificationChannel.SMS ∉ final := by
      rw [hfinal]
      by_cases hemp : (Notif.narrowed pref ty parsed).isEmpty
      · rw [if_pos hemp]
        simp
      · rw [if_neg hemp]
        exact sms_not_mem_narrowed pref ty parsed hsms
    refine ⟨hchan ▸ hnot, ?_⟩
    intro d hd hdc
    apply hnot
    rw [← hmap]
    exact List.mem_map.mpr ⟨d, hd, hdc⟩
  · intro ty' hty' parsed' hch' hnil
    cases hty'
    cases hch'
    have : final = [Notif.NotificationChannel.IN_APP] := by
      rw [hfinal, hnil]
      simp
    exact ⟨hchan.trans this, hmap.trans this⟩

/-- C6 witness: a recipient whose preferences disable SMS (all else
enabled), asked for exactly `["SMS"]`, gets a notification whose only
channel is `IN_APP` with exactly one `IN_APP` delivery attempt and no
SMS attempt. -/
theorem create_notification_preference_narrowing_witness :
    Notif.create_notification
      (fun _ => some ⟨true, false, true, true, true, true, true, true, true, true⟩)
      "u1" "MARKETING" "t" "c" (some ["SMS"]) "NORMAL" 0 =
      .ok { recipient_id := "u1", notification_type := .MARKETING, title := "t",
            content := "c", channels := [.IN_APP], priority := .NORMAL,
            status := .PENDING, read_at := none,
            delivery_attempts := [⟨.IN_APP, "PENDING", 1⟩], updated_at := 0 } ∧
    Notif.NotificationChannel.SMS ∉
      (Notif.Notification.mk "u1" .MARKETING "t" "c" [.IN_APP] .NORMAL .PENDING none
        [⟨.IN_APP, "PENDING", 1⟩] 0).channels ∧
    (Notif.Notification.mk "u1" .MARKETING "t" "c" [.IN_APP] .NORMAL .PENDING none
        [⟨.IN_APP, "PENDING", 1⟩] 0).channels = [.IN_APP] ∧
    ((Notif.Notification.mk "u1" .MARKETING "t" "c" [.IN_APP] .NORMAL .PENDING none
        [⟨.IN_APP, "PENDING", 1⟩] 0).delivery_attempts).map (fun d => d.channel) =
      [.IN_APP] := by
  have hok : Notif.create_notification
      (fun _ => some ⟨true, false, true, true, true, true, true, true, true, true⟩)
      "u1" "MARKETING" "t" "c" (some ["SMS"]) "NORMAL" 0 =
      .ok (Notif.Notification.mk "u1" .MARKETING "t" "c" [.IN_APP] .NORMAL .PENDING none
        [⟨.IN_APP, "PENDING", 1⟩] 0) := rfl
  have h := create_notification_preference_narrowing
    (fun _ => some ⟨true, false, true, true, true, true, true, true, true, true⟩)
    "u1" "MARKETING" "t" "c" (some ["SMS"]) "NORMAL" 0
    ⟨true, false, true, true, true, true, true, true, true, true⟩
    (Notif.Notification.mk "u1" .MARKETING "t" "c" [.IN_APP] .NORMAL .PENDING none
      [⟨.IN_APP, "PENDING", 1⟩] 0) rfl hok
  refine ⟨hok, (h.2.2.1 rfl).1, ?_, ?_⟩
  · exact (h.2.2.2 .MARKETING rfl [.SMS] rfl rfl).1
  · exact (h.2.2.2 .MARKETING rfl [.SMS] rfl rfl).2
